/-
Verification of the research-ralph core: persisted-state manager (RRDManager),
agent invoker (AgentRunner) and orchestration loop (ResearchLoop), shallowly
embedded from `src/ralph/core/agent_runner.py`, `src/ralph/core/rrd_manager.py`,
`src/ralph/core/research_loop.py` and the data model in `src/ralph/models/`.
-/
import Mathlib

namespace Ralph

/-! ### String helpers

Python's `in` operator on strings is substring containment; `str.lower()` is
per-character lowercasing.  We model strings by their character lists. -/

/-- Does `hay` start with `needle`?  (list-level prefix test) -/
def startsWithChars : List Char → List Char → Bool
  | [], _ => true
  | _ :: _, [] => false
  | a :: as, b :: bs => a == b && startsWithChars as bs

/-- Substring containment: Python's `needle in hay`. -/
def hasSubChars (needle : List Char) : List Char → Bool
  | [] => startsWithChars needle []
  | c :: cs => startsWithChars needle (c :: cs) || hasSubChars needle cs

/-- `strHas hay needle` models Python's `needle in hay`. -/
def strHas (hay needle : String) : Bool :=
  hasSubChars needle.data hay.data

/-- Python's `str.lower()` (per-character lowercasing). -/
def strLower (s : String) : String :=
  ⟨s.data.map Char.toLower⟩

/-- Python's `s[:n]` slice. -/
def strTake (s : String) (n : Nat) : String :=
  ⟨s.data.take n⟩

/-! ### Error classification (`agent_runner.py`, `ErrorType`, `classify_error`,
`get_retry_delay`) -/

/-- `ErrorType` enum from `agent_runner.py`. -/
inductive ErrorType where
  | rate_limit
  | forbidden
  | bot_challenge
  | timeout
  | network
  | unknown
  deriving DecidableEq, Repr

/-- The `.value` string of each `ErrorType` member. -/
def ErrorType.value : ErrorType → String
  | .rate_limit => "rate_limit"
  | .forbidden => "forbidden"
  | .bot_challenge => "bot_challenge"
  | .timeout => "timeout"
  | .network => "network"
  | .unknown => "unknown"

/-- `classify_error(output)` from `agent_runner.py`: ordered substring rules on
the raw output (`"403"`, `"429"`) and the lowercased output (all other
needles), first match wins. -/
def classify_error (output : String) : ErrorType :=
  let output_lower := strLower output
  if strHas output "403" || strHas output_lower "forbidden" then .forbidden
  else if strHas output "429" || strHas output_lower "too many requests" ||
      (strHas output_lower "rate" && strHas output_lower "limit") then .rate_limit
  else if strHas output_lower "bot" || strHas output_lower "challenge" ||
      strHas output_lower "captcha" || strHas output_lower "blocked" then .bot_challenge
  else if strHas output_lower "timeout" || strHas output_lower "timed out" then .timeout
  else if strHas output_lower "network" || strHas output_lower "connection" ||
      strHas output_lower "dns" then .network
  else .unknown

/-- The ordered rule list behind `classify_error`, made explicit: each entry is
a predicate on the output together with the kind returned when it matches. -/
def classifyRules : List ((String → Bool) × ErrorType) :=
  [ (fun s => strHas s "403" || strHas (strLower s) "forbidden", .forbidden),
    (fun s => strHas s "429" || strHas (strLower s) "too many requests" ||
      (strHas (strLower s) "rate" && strHas (strLower s) "limit"), .rate_limit),
    (fun s => strHas (strLower s) "bot" || strHas (strLower s) "challenge" ||
      strHas (strLower s) "captcha" || strHas (strLower s) "blocked", .bot_challenge),
    (fun s => strHas (strLower s) "timeout" || strHas (strLower s) "timed out", .timeout),
    (fun s => strHas (strLower s) "network" || strHas (strLower s) "connection" ||
      strHas (strLower s) "dns", .network) ]

/-- First-match-wins evaluation of an ordered rule list, `Unknown` when no rule
matches. -/
def firstMatch (s : String) : List ((String → Bool) × ErrorType) → ErrorType
  | [] => .unknown
  | (p, k) :: rest => if p s then k else firstMatch s rest

/-- `get_retry_delay(error_type)` from `agent_runner.py`:
returns `(delay_seconds, should_retry)`. -/
def get_retry_delay : ErrorType → Nat × Bool
  | .forbidden => (0, false)
  | .bot_challenge => (0, false)
  | .rate_limit => (30, true)
  | .timeout => (2, true)
  | .network => (2, true)
  | .unknown => (5, true)

/-! ### Agent invoker (`agent_runner.py`, `AgentRunner.run` / `run_streaming`)

A terminating external process is modelled by its exit code, its combined
standard-output/standard-error stream, and (for the codex profile) the content
the process leaves in the `--output-last-message` file (empty if it writes
nothing).  `run` reads that file and appends it; `run_streaming` launches
codex *without* the `--output-last-message` argument. -/

/-- The `Agent` enum from `config.py`. -/
inductive Agent where
  | claude
  | amp
  | codex
  deriving DecidableEq, Repr

/-- Observable behavior of one terminating agent process. -/
structure ProcBehavior where
  exitCode : Int
  outStream : String
  lastMessage : String
  deriving DecidableEq, Repr

/-- `AgentResult` dataclass from `agent_runner.py`.  The Python field
`error_type` holds the `.value` string of an `ErrorType` member (or `None`);
the loop turns it back into the enum via `ErrorType(...)`, defaulting to
UNKNOWN when absent — modelled directly as `Option ErrorType` with
`getD .unknown`. -/
structure AgentResult where
  output : String
  exit_code : Int
  success : Bool
  error_type : Option ErrorType := none
  deriving DecidableEq, Repr

/-- `AgentResult.is_complete`: the completion-signal marker is present in the
output. -/
def AgentResult.is_complete (r : AgentResult) : Bool :=
  strHas r.output "<promise>COMPLETE</promise>"

/-- Shared result construction of `_run_claude` / `_run_amp` / `_run_codex` /
`run_streaming`: success iff exit code zero, classify the output on failure. -/
def mkAgentResult (output : String) (exitCode : Int) : AgentResult :=
  let success := exitCode == 0
  { output := output, exit_code := exitCode, success := success,
    error_type := if success then none else some (classify_error output) }

/-- Effects observable from one blocking or streaming invocation. -/
structure RunEffects where
  result : AgentResult
  tempFileCreated : Bool
  tempFileRemoved : Bool
  deriving DecidableEq, Repr

/-- `AgentRunner.run`: blocking invocation.  For codex the content of the
`--output-last-message` temp file is appended to the captured output and the
temp file is deleted in the `finally` block; the other profiles use no temp
file. -/
def runEffects (a : Agent) (b : ProcBehavior) : RunEffects :=
  match a with
  | .codex =>
      { result := mkAgentResult (b.outStream ++ b.lastMessage) b.exitCode,
        tempFileCreated := true, tempFileRemoved := true }
  | _ =>
      { result := mkAgentResult b.outStream b.exitCode,
        tempFileCreated := false, tempFileRemoved := false }

/-- Split a character stream into lines, each keeping its trailing newline,
as Python's iteration over a text-mode pipe does. -/
def splitLinesChars (acc : List Char) : List Char → List (List Char)
  | [] => if acc.isEmpty then [] else [acc.reverse]
  | c :: cs =>
      if c == '\n' then (acc.reverse ++ ['\n']) :: splitLinesChars [] cs
      else splitLinesChars (c :: acc) cs

/-- The lines yielded by `run_streaming` for a given combined output stream. -/
def toLines (s : String) : List String :=
  (splitLinesChars [] s.data).map String.mk

/-- `"".join(lines)`. -/
def joinStrings (ls : List String) : String :=
  ⟨(ls.map String.data).flatten⟩

/-- `AgentRunner.run_streaming`: yields the lines of the merged
stdout/stderr stream, then builds the final result from `"".join(lines)` and
the exit code.  The codex command line here omits `--output-last-message`, so
no temp file is created and no last message is appended. -/
def runStreamingEffects (_a : Agent) (b : ProcBehavior) : RunEffects × List String :=
  let lines := toLines b.outStream
  ({ result := mkAgentResult (joinStrings lines) b.exitCode,
     tempFileCreated := false, tempFileRemoved := false }, lines)

/-! ### JSON values

The document file holds a JSON value (`save` dumps `json.loads(rrd.model_dump_json())`,
`load` runs `RRD(**json.load(f))`).  Python's `json` distinguishes integers from
floats; floats round-trip exactly through `repr`, so they are modelled as exact
rationals.  Dates and datetimes are serialized as ISO strings and parsed back
losslessly by pydantic, so they are modelled as their (opaque) string form. -/

inductive Json where
  | null
  | bool (b : Bool)
  | int (n : Int)
  | num (q : Rat)
  | str (s : String)
  | arr (xs : List Json)
  | obj (fields : List (String × Json))

/-- Key lookup in a JSON object. -/
def jLookup : List (String × Json) → String → Option Json
  | [], _ => none
  | (k', v) :: rest, k => if k' = k then some v else jLookup rest k

/-- Extract field `k`: `dflt` when the key is absent (pydantic default;
`none` for a required field), otherwise parse the present value. -/
def getF {α : Type} (fs : List (String × Json)) (k : String)
    (dec : Json → Option α) (dflt : Option α) : Option α :=
  match jLookup fs k with
  | none => dflt
  | some j => dec j

/-- Extract a field that has a pydantic alias with `populate_by_name=True`:
the alias key `ka` takes precedence over the field name `kn`. -/
def getF2 {α : Type} (fs : List (String × Json)) (ka kn : String)
    (dec : Json → Option α) (dflt : Option α) : Option α :=
  match jLookup fs ka with
  | some j => dec j
  | none => getF fs kn dec dflt

/-- A JSON string (also used for pydantic date/datetime fields, whose ISO
serialization is modelled as an opaque string). -/
def decStr : Json → Option String
  | .str s => some s
  | _ => none

/-- An unconstrained `int` field. -/
def decInt : Json → Option Int
  | .int n => some n
  | _ => none

/-- An `int` field with pydantic `ge=lo` / `le=hi` bounds. -/
def decIntRange (lo hi : Int) : Json → Option Int
  | .int n => if lo ≤ n ∧ n ≤ hi then some n else none
  | _ => none

/-- An `int` field with only a `ge=lo` bound. -/
def decIntGe (lo : Int) : Json → Option Int
  | .int n => if lo ≤ n then some n else none
  | _ => none

/-- A `bool` field. -/
def decBool : Json → Option Bool
  | .bool b => some b
  | _ => none

/-- A `float` field (pydantic coerces JSON integers to float). -/
def decRat : Json → Option Rat
  | .num q => some q
  | .int n => some (n : Rat)
  | _ => none

/-- An `Optional[...]` field: explicit `null` becomes `None`. -/
def decOpt {α : Type} (dec : Json → Option α) : Json → Option (Option α)
  | .null => some none
  | j => (dec j).map some

/-- A `list[...]` field. -/
def decList {α : Type} (dec : Json → Option α) : Json → Option (List α)
  | .arr xs => decListAux dec xs
  | _ => none
where
  decListAux (dec : Json → Option α) : List Json → Option (List α)
    | [] => some []
    | j :: js => do
        let a ← dec j
        let as ← decListAux dec js
        pure (a :: as)

/-- A `dict[str, str]` field. -/
def decStrDict : Json → Option (List (String × String))
  | .obj fs => decStrDictAux fs
  | _ => none
where
  decStrDictAux : List (String × Json) → Option (List (String × String))
    | [] => some []
    | (k, .str v) :: rest => do
        let tail ← decStrDictAux rest
        pure ((k, v) :: tail)
    | _ => none

/-- A `dict[str, Any]` field: any JSON object. -/
def decJsonDict : Json → Option (List (String × Json))
  | .obj fs => some fs
  | _ => none

/-- Encode an `Optional[...]` field. -/
def encOpt {α : Type} (enc : α → Json) : Option α → Json
  | none => .null
  | some a => enc a

/-- Encode a `list[...]` field. -/
def encList {α : Type} (enc : α → Json) (l : List α) : Json :=
  .arr (l.map enc)

/-- Encode a `dict[str, str]` field. -/
def encStrDict (d : List (String × String)) : Json :=
  .obj (d.map fun p => (p.1, .str p.2))

/-! Round-trip lemmas for the leaf codecs. -/

/-! ### Data model (`models/rrd.py`, `models/paper.py`)

Each pydantic model becomes a structure; its JSON serialization
(`model_dump_json`, field-declaration order, field names as keys) becomes an
encoder, and pydantic validation (`Model(**data)`: defaults for absent keys,
type and `ge`/`le` checks on present values) becomes a decoder. -/

/-- `Phase` enum. -/
inductive Phase where
  | discovery
  | analysis
  | ideation
  | complete
  deriving DecidableEq, Repr

def encPhase : Phase → Json
  | .discovery => .str "DISCOVERY"
  | .analysis => .str "ANALYSIS"
  | .ideation => .str "IDEATION"
  | .complete => .str "COMPLETE"

def decPhase : Json → Option Phase
  | .str s =>
      if s = "DISCOVERY" then some .discovery
      else if s = "ANALYSIS" then some .analysis
      else if s = "IDEATION" then some .ideation
      else if s = "COMPLETE" then some .complete
      else none
  | _ => none

/-- `PaperStatus` enum from `models/paper.py`. -/
inductive PaperStatus where
  | pending
  | analyzing
  | presented
  | rejected
  | extract_insights
  | insights_extracted
  deriving DecidableEq, Repr

def encStatus : PaperStatus → Json
  | .pending => .str "pending"
  | .analyzing => .str "analyzing"
  | .presented => .str "presented"
  | .rejected => .str "rejected"
  | .extract_insights => .str "extract_insights"
  | .insights_extracted => .str "insights_extracted"

def decStatus : Json → Option PaperStatus
  | .str s =>
      if s = "pending" then some .pending
      else if s = "analyzing" then some .analyzing
      else if s = "presented" then some .presented
      else if s = "rejected" then some .rejected
      else if s = "extract_insights" then some .extract_insights
      else if s = "insights_extracted" then some .insights_extracted
      else none
  | _ => none

/-- `Mission` model. -/
structure Mission where
  blue_ocean_scoring : Bool := true
  min_blue_ocean_score : Int := 12
  min_combined_score : Int := 25
  strategic_focus : String := "balanced"
  deriving Repr

def encodeMission (m : Mission) : Json :=
  .obj [("blue_ocean_scoring", .bool m.blue_ocean_scoring),
        ("min_blue_ocean_score", .int m.min_blue_ocean_score),
        ("min_combined_score", .int m.min_combined_score),
        ("strategic_focus", .str m.strategic_focus)]

def decodeMission : Json → Option Mission
  | .obj fs => do
      let b ← getF fs "blue_ocean_scoring" decBool (some true)
      let m1 ← getF fs "min_blue_ocean_score" (decIntRange 0 20) (some 12)
      let m2 ← getF fs "min_combined_score" (decIntRange 0 50) (some 25)
      let f ← getF fs "strategic_focus" decStr (some "balanced")
      pure ⟨b, m1, m2, f⟩
  | _ => none

/-- The `ge`/`le` bounds declared on `Mission` fields. -/
def validMission (m : Mission) : Bool :=
  0 ≤ m.min_blue_ocean_score && m.min_blue_ocean_score ≤ 20 &&
  (0 ≤ m.min_combined_score && m.min_combined_score ≤ 50)

/-- `Requirements` model. -/
structure Requirements where
  focus_area : String
  keywords : List String := []
  time_window_days : Int := 30
  historical_lookback_days : Int := 365
  target_papers : Int := 20
  sources : List String := ["arXiv", "Google Scholar", "web"]
  min_score_to_present : Int := 18
  deriving Repr

def encodeRequirements (r : Requirements) : Json :=
  .obj [("focus_area", .str r.focus_area),
        ("keywords", encList .str r.keywords),
        ("time_window_days", .int r.time_window_days),
        ("historical_lookback_days", .int r.historical_lookback_days),
        ("target_papers", .int r.target_papers),
        ("sources", encList .str r.sources),
        ("min_score_to_present", .int r.min_score_to_present)]

def decodeRequirements : Json → Option Requirements
  | .obj fs => do
      let fa ← getF fs "focus_area" decStr none
      let kw ← getF fs "keywords" (decList decStr) (some [])
      let twd ← getF fs "time_window_days" (decIntGe 1) (some 30)
      let hld ← getF fs "historical_lookback_days" decInt (some 365)
      let tp ← getF fs "target_papers" (decIntGe 1) (some 20)
      let src ← getF fs "sources" (decList decStr) (some ["arXiv", "Google Scholar", "web"])
      let msp ← getF fs "min_score_to_present" (decIntRange 0 50) (some 18)
      pure ⟨fa, kw, twd, hld, tp, src, msp⟩
  | _ => none

/-- The `ge`/`le` bounds declared on `Requirements` fields. -/
def validRequirements (r : Requirements) : Bool :=
  1 ≤ r.time_window_days && 1 ≤ r.target_papers &&
  (0 ≤ r.min_score_to_present && r.min_score_to_present ≤ 50)

/-- `PhaseTiming` model (datetimes as their ISO-string form). -/
structure PhaseTiming where
  started_at : Option String := none
  ended_at : Option String := none
  duration_seconds : Option Int := none
  deriving Repr

def encodePhaseTiming (t : PhaseTiming) : Json :=
  .obj [("started_at", encOpt .str t.started_at),
        ("ended_at", encOpt .str t.ended_at),
        ("duration_seconds", encOpt .int t.duration_seconds)]

def decodePhaseTiming : Json → Option PhaseTiming
  | .obj fs => do
      let s ← getF fs "started_at" (decOpt decStr) (some none)
      let e ← getF fs "ended_at" (decOpt decStr) (some none)
      let d ← getF fs "duration_seconds" (decOpt decInt) (some none)
      pure ⟨s, e, d⟩
  | _ => none

/-- `AnalysisTiming` model (inherits `PhaseTiming`; parent fields serialize
first). -/
structure AnalysisTiming where
  started_at : Option String := none
  ended_at : Option String := none
  duration_seconds : Option Int := none
  papers_analyzed : Int := 0
  avg_seconds_per_paper : Option Rat := none
  deriving Repr

def encodeAnalysisTiming (t : AnalysisTiming) : Json :=
  .obj [("started_at", encOpt .str t.started_at),
        ("ended_at", encOpt .str t.ended_at),
        ("duration_seconds", encOpt .int t.duration_seconds),
        ("papers_analyzed", .int t.papers_analyzed),
        ("avg_seconds_per_paper", encOpt .num t.avg_seconds_per_paper)]

def decodeAnalysisTiming : Json → Option AnalysisTiming
  | .obj fs => do
      let s ← getF fs "started_at" (decOpt decStr) (some none)
      let e ← getF fs "ended_at" (decOpt decStr) (some none)
      let d ← getF fs "duration_seconds" (decOpt decInt) (some none)
      let pa ← getF fs "papers_analyzed" decInt (some 0)
      let avg ← getF fs "avg_seconds_per_paper" (decOpt decRat) (some none)
      pure ⟨s, e, d, pa, avg⟩
  | _ => none

/-- `Timing` model. -/
structure Timing where
  research_started_at : Option String := none
  discovery : PhaseTiming := {}
  analysis : AnalysisTiming := {}
  ideation : PhaseTiming := {}
  complete : PhaseTiming := {}
  deriving Repr

def encodeTiming (t : Timing) : Json :=
  .obj [("research_started_at", encOpt .str t.research_started_at),
        ("discovery", encodePhaseTiming t.discovery),
        ("analysis", encodeAnalysisTiming t.analysis),
        ("ideation", encodePhaseTiming t.ideation),
        ("complete", encodePhaseTiming t.complete)]

def decodeTiming : Json → Option Timing
  | .obj fs => do
      let rs ← getF fs "research_started_at" (decOpt decStr) (some none)
      let d ← getF fs "discovery" decodePhaseTiming (some {})
      let a ← getF fs "analysis" decodeAnalysisTiming (some {})
      let i ← getF fs "ideation" decodePhaseTiming (some {})
      let c ← getF fs "complete" decodePhaseTiming (some {})
      pure ⟨rs, d, a, i, c⟩
  | _ => none

/-- Default of `ProductIdeationConfig.assumed_constraints`. -/
def defaultAssumedConstraints : List (String × Json) :=
  [("team_size", .int 3), ("time_horizon_months", .int 3),
   ("deployment_preference", .arr [.str "saas", .str "on_prem"])]

/-- `ProductIdeationConfig` model. -/
structure ProductIdeationConfig where
  enabled : Bool := true
  min_ideas : Int := 3
  max_ideas : Int := 12
  output_filename : String := "product-ideas.json"
  ranking_goal : String := "pick_one_for_prd"
  assumed_constraints : List (String × Json) := defaultAssumedConstraints

def encodeProductIdeationConfig (c : ProductIdeationConfig) : Json :=
  .obj [("enabled", .bool c.enabled),
        ("min_ideas", .int c.min_ideas),
        ("max_ideas", .int c.max_ideas),
        ("output_filename", .str c.output_filename),
        ("ranking_goal", .str c.ranking_goal),
        ("assumed_constraints", .obj c.assumed_constraints)]

def decodeProductIdeationConfig : Json → Option ProductIdeationConfig
  | .obj fs => do
      let e ← getF fs "enabled" decBool (some true)
      let mn ← getF fs "min_ideas" (decIntGe 1) (some 3)
      let mx ← getF fs "max_ideas" (decIntGe 1) (some 12)
      let ofn ← getF fs "output_filename" decStr (some "product-ideas.json")
      let rg ← getF fs "ranking_goal" decStr (some "pick_one_for_prd")
      let ac ← getF fs "assumed_constraints" decJsonDict (some defaultAssumedConstraints)
      pure ⟨e, mn, mx, ofn, rg, ac⟩
  | _ => none

/-- The `ge` bounds declared on `ProductIdeationConfig` fields. -/
def validProductIdeationConfig (c : ProductIdeationConfig) : Bool :=
  1 ≤ c.min_ideas && 1 ≤ c.max_ideas

/-- `Handoff` model. -/
structure Handoff where
  product_ideation : ProductIdeationConfig := {}

def encodeHandoff (h : Handoff) : Json :=
  .obj [("product_ideation", encodeProductIdeationConfig h.product_ideation)]

def decodeHandoff : Json → Option Handoff
  | .obj fs => do
      let p ← getF fs "product_ideation" decodeProductIdeationConfig (some {})
      pure ⟨p⟩
  | _ => none

def validHandoff (h : Handoff) : Bool :=
  validProductIdeationConfig h.product_ideation

/-- `Insight` model. -/
structure Insight where
  id : String
  paper_id : String
  insight : String
  tags : List String := []
  cross_refs : List String := []
  cross_cluster : Option String := none
  deriving DecidableEq, Repr

def encodeInsight (i : Insight) : Json :=
  .obj [("id", .str i.id),
        ("paper_id", .str i.paper_id),
        ("insight", .str i.insight),
        ("tags", encList .str i.tags),
        ("cross_refs", encList .str i.cross_refs),
        ("cross_cluster", encOpt .str i.cross_cluster)]

def decodeInsight : Json → Option Insight
  | .obj fs => do
      let i ← getF fs "id" decStr none
      let p ← getF fs "paper_id" decStr none
      let t ← getF fs "insight" decStr none
      let tg ← getF fs "tags" (decList decStr) (some [])
      let cr ← getF fs "cross_refs" (decList decStr) (some [])
      let cc ← getF fs "cross_cluster" (decOpt decStr) (some none)
      pure ⟨i, p, t, tg, cr, cc⟩
  | _ => none

/-- `DiscoveryMetrics` model. -/
structure DiscoveryMetrics where
  sources_tried : List String := []
  sources_successful : List String := []
  sources_blocked : List String := []
  source_failure_reasons : List (String × String) := []
  deriving DecidableEq, Repr

def encodeDiscoveryMetrics (m : DiscoveryMetrics) : Json :=
  .obj [("sources_tried", encList .str m.sources_tried),
        ("sources_successful", encList .str m.sources_successful),
        ("sources_blocked", encList .str m.sources_blocked),
        ("source_failure_reasons", encStrDict m.source_failure_reasons)]

def decodeDiscoveryMetrics : Json → Option DiscoveryMetrics
  | .obj fs => do
      let t ← getF fs "sources_tried" (decList decStr) (some [])
      let s ← getF fs "sources_successful" (decList decStr) (some [])
      let b ← getF fs "sources_blocked" (decList decStr) (some [])
      let r ← getF fs "source_failure_reasons" decStrDict (some [])
      pure ⟨t, s, b, r⟩
  | _ => none

/-- `ScoreDistribution` model: the four bucket fields carry aliases
(`"0-17"`, …) with `populate_by_name=True`; serialization uses the field
names, validation accepts alias or name (alias first). -/
structure ScoreDistribution where
  range_0_17 : Int := 0
  range_18_24 : Int := 0
  range_25_34 : Int := 0
  range_35_50 : Int := 0
  deriving DecidableEq, Repr

def encodeScoreDistribution (d : ScoreDistribution) : Json :=
  .obj [("range_0_17", .int d.range_0_17),
        ("range_18_24", .int d.range_18_24),
        ("range_25_34", .int d.range_25_34),
        ("range_35_50", .int d.range_35_50)]

def decodeScoreDistribution : Json → Option ScoreDistribution
  | .obj fs => do
      let a ← getF2 fs "0-17" "range_0_17" decInt (some 0)
      let b ← getF2 fs "18-24" "range_18_24" decInt (some 0)
      let c ← getF2 fs "25-34" "range_25_34" decInt (some 0)
      let d ← getF2 fs "35-50" "range_35_50" decInt (some 0)
      pure ⟨a, b, c, d⟩
  | _ => none

/-- `BlueOceanDistribution` model. -/
structure BlueOceanDistribution where
  range_0_7 : Int := 0
  range_8_11 : Int := 0
  range_12_15 : Int := 0
  range_16_20 : Int := 0
  deriving DecidableEq, Repr

def encodeBlueOceanDistribution (d : BlueOceanDistribution) : Json :=
  .obj [("range_0_7", .int d.range_0_7),
        ("range_8_11", .int d.range_8_11),
        ("range_12_15", .int d.range_12_15),
        ("range_16_20", .int d.range_16_20)]

def decodeBlueOceanDistribution : Json → Option BlueOceanDistribution
  | .obj fs => do
      let a ← getF2 fs "0-7" "range_0_7" decInt (some 0)
      let b ← getF2 fs "8-11" "range_8_11" decInt (some 0)
      let c ← getF2 fs "12-15" "range_12_15" decInt (some 0)
      let d ← getF2 fs "16-20" "range_16_20" decInt (some 0)
      pure ⟨a, b, c, d⟩
  | _ => none

/-- `AnalysisMetrics` model. -/
structure AnalysisMetrics where
  avg_combined_score : Rat := 0
  avg_execution_score : Rat := 0
  avg_blue_ocean_score : Rat := 0
  combined_score_distribution : ScoreDistribution := {}
  blue_ocean_distribution : BlueOceanDistribution := {}
  deriving DecidableEq, Repr

def encodeAnalysisMetrics (m : AnalysisMetrics) : Json :=
  .obj [("avg_combined_score", .num m.avg_combined_score),
        ("avg_execution_score", .num m.avg_execution_score),
        ("avg_blue_ocean_score", .num m.avg_blue_ocean_score),
        ("combined_score_distribution", encodeScoreDistribution m.combined_score_distribution),
        ("blue_ocean_distribution", encodeBlueOceanDistribution m.blue_ocean_distribution)]

def decodeAnalysisMetrics : Json → Option AnalysisMetrics
  | .obj fs => do
      let a ← getF fs "avg_combined_score" decRat (some 0)
      let b ← getF fs "avg_execution_score" decRat (some 0)
      let c ← getF fs "avg_blue_ocean_score" decRat (some 0)
      let d ← getF fs "combined_score_distribution" decodeScoreDistribution (some {})
      let e ← getF fs "blue_ocean_distribution" decodeBlueOceanDistribution (some {})
      pure ⟨a, b, c, d, e⟩
  | _ => none

/-- `IdeationMetrics` model. -/
structure IdeationMetrics where
  product_ideas_generated : Int := 0
  top_idea_id : Option String := none
  deriving DecidableEq, Repr

def encodeIdeationMetrics (m : IdeationMetrics) : Json :=
  .obj [("product_ideas_generated", .int m.product_ideas_generated),
        ("top_idea_id", encOpt .str m.top_idea_id)]

def decodeIdeationMetrics : Json → Option IdeationMetrics
  | .obj fs => do
      let p ← getF fs "product_ideas_generated" decInt (some 0)
      let t ← getF fs "top_idea_id" (decOpt decStr) (some none)
      pure ⟨p, t⟩
  | _ => none

/-- `Statistics` model. -/
structure Statistics where
  total_discovered : Int := 0
  total_analyzed : Int := 0
  total_presented : Int := 0
  total_rejected : Int := 0
  total_insights_extracted : Int := 0
  discovery_metrics : DiscoveryMetrics := {}
  analysis_metrics : AnalysisMetrics := {}
  ideation_metrics : IdeationMetrics := {}
  deriving DecidableEq, Repr

def encodeStatistics (s : Statistics) : Json :=
  .obj [("total_discovered", .int s.total_discovered),
        ("total_analyzed", .int s.total_analyzed),
        ("total_presented", .int s.total_presented),
        ("total_rejected", .int s.total_rejected),
        ("total_insights_extracted", .int s.total_insights_extracted),
        ("discovery_metrics", encodeDiscoveryMetrics s.discovery_metrics),
        ("analysis_metrics", encodeAnalysisMetrics s.analysis_metrics),
        ("ideation_metrics", encodeIdeationMetrics s.ideation_metrics)]

def decodeStatistics : Json → Option Statistics
  | .obj fs => do
      let a ← getF fs "total_discovered" decInt (some 0)
      let b ← getF fs "total_analyzed" decInt (some 0)
      let c ← getF fs "total_presented" decInt (some 0)
      let d ← getF fs "total_rejected" decInt (some 0)
      let e ← getF fs "total_insights_extracted" decInt (some 0)
      let dm ← getF fs "discovery_metrics" decodeDiscoveryMetrics (some {})
      let am ← getF fs "analysis_metrics" decodeAnalysisMetrics (some {})
      let im ← getF fs "ideation_metrics" decodeIdeationMetrics (some {})
      pure ⟨a, b, c, d, e, dm, am, im⟩
  | _ => none

/-- `DomainGlossary` model. -/
structure DomainGlossary where
  enabled : Bool := false
  terms : List (String × String) := []
  deriving DecidableEq, Repr

def encodeDomainGlossary (g : DomainGlossary) : Json :=
  .obj [("enabled", .bool g.enabled), ("terms", encStrDict g.terms)]

def decodeDomainGlossary : Json → Option DomainGlossary
  | .obj fs => do
      let e ← getF fs "enabled" decBool (some false)
      let t ← getF fs "terms" decStrDict (some [])
      pure ⟨e, t⟩
  | _ => none

/-- `ScoreBreakdown` model from `models/paper.py` (all rubric items 0–5). -/
structure ScoreBreakdown where
  novelty : Int := 0
  feasibility : Int := 0
  time_to_poc : Int := 0
  value_market : Int := 0
  defensibility : Int := 0
  adoption : Int := 0
  market_creation : Int := 0
  first_mover_window : Int := 0
  network_data_effects : Int := 0
  strategic_clarity : Int := 0
  deriving DecidableEq, Repr

def encodeScoreBreakdown (b : ScoreBreakdown) : Json :=
  .obj [("novelty", .int b.novelty),
        ("feasibility", .int b.feasibility),
        ("time_to_poc", .int b.time_to_poc),
        ("value_market", .int b.value_market),
        ("defensibility", .int b.defensibility),
        ("adoption", .int b.adoption),
        ("market_creation", .int b.market_creation),
        ("first_mover_window", .int b.first_mover_window),
        ("network_data_effects", .int b.network_data_effects),
        ("strategic_clarity", .int b.strategic_clarity)]

def decodeScoreBreakdown : Json → Option ScoreBreakdown
  | .obj fs => do
      let f1 ← getF fs "novelty" (decIntRange 0 5) (some 0)
      let f2 ← getF fs "feasibility" (decIntRange 0 5) (some 0)
      let f3 ← getF fs "time_to_poc" (decIntRange 0 5) (some 0)
      let f4 ← getF fs "value_market" (decIntRange 0 5) (some 0)
      let f5 ← getF fs "defensibility" (decIntRange 0 5) (some 0)
      let f6 ← getF fs "adoption" (decIntRange 0 5) (some 0)
      let f7 ← getF fs "market_creation" (decIntRange 0 5) (some 0)
      let f8 ← getF fs "first_mover_window" (decIntRange 0 5) (some 0)
      let f9 ← getF fs "network_data_effects" (decIntRange 0 5) (some 0)
      let f10 ← getF fs "strategic_clarity" (decIntRange 0 5) (some 0)
      pure ⟨f1, f2, f3, f4, f5, f6, f7, f8, f9, f10⟩
  | _ => none

/-- The 0–5 bounds on every `ScoreBreakdown` field. -/
def validScoreBreakdown (b : ScoreBreakdown) : Bool :=
  (0 ≤ b.novelty && b.novelty ≤ 5) && (0 ≤ b.feasibility && b.feasibility ≤ 5) &&
  (0 ≤ b.time_to_poc && b.time_to_poc ≤ 5) && (0 ≤ b.value_market && b.value_market ≤ 5) &&
  (0 ≤ b.defensibility && b.defensibility ≤ 5) && (0 ≤ b.adoption && b.adoption ≤ 5) &&
  (0 ≤ b.market_creation && b.market_creation ≤ 5) &&
  (0 ≤ b.first_mover_window && b.first_mover_window ≤ 5) &&
  (0 ≤ b.network_data_effects && b.network_data_effects ≤ 5) &&
  (0 ≤ b.strategic_clarity && b.strategic_clarity ≤ 5)

/-- `Union[str, dict[str, Any]]` for `Paper.analysis`. -/
def encAnalysisPayload : String ⊕ List (String × Json) → Json
  | .inl s => .str s
  | .inr d => .obj d

def decAnalysisPayload : Json → Option (String ⊕ List (String × Json))
  | .str s => some (.inl s)
  | .obj d => some (.inr d)
  | _ => none

/-- `Paper` model (`models/paper.py`; the publication date as its ISO-string
form). -/
structure Paper where
  id : String
  title : String
  url : String
  pdf_url : Option String := none
  authors : List String := []
  date : Option String := none
  source : String := "unknown"
  priority : Int := 3
  status : PaperStatus := .pending
  score : Option Int := none
  score_breakdown : Option ScoreBreakdown := none
  analysis : Option (String ⊕ List (String × Json)) := none
  decision : Option String := none
  notes : String := ""
  implementation_url : Option String := none
  commercialized : Option Bool := none

def encodePaper (p : Paper) : Json :=
  .obj [("id", .str p.id),
        ("title", .str p.title),
        ("url", .str p.url),
        ("pdf_url", encOpt .str p.pdf_url),
        ("authors", encList .str p.authors),
        ("date", encOpt .str p.date),
        ("source", .str p.source),
        ("priority", .int p.priority),
        ("status", encStatus p.status),
        ("score", encOpt .int p.score),
        ("score_breakdown", encOpt encodeScoreBreakdown p.score_breakdown),
        ("analysis", encOpt encAnalysisPayload p.analysis),
        ("decision", encOpt .str p.decision),
        ("notes", .str p.notes),
        ("implementation_url", encOpt .str p.implementation_url),
        ("commercialized", encOpt .bool p.commercialized)]

def decodePaper : Json → Option Paper
  | .obj fs => do
      let i ← getF fs "id" decStr none
      let t ← getF fs "title" decStr none
      let u ← getF fs "url" decStr none
      let pu ← getF fs "pdf_url" (decOpt decStr) (some none)
      let au ← getF fs "authors" (decList decStr) (some [])
      let dt ← getF fs "date" (decOpt decStr) (some none)
      let so ← getF fs "source" decStr (some "unknown")
      let pr ← getF fs "priority" (decIntRange 1 5) (some 3)
      let st ← getF fs "status" decStatus (some .pending)
      let sc ← getF fs "score" (decOpt (decIntRange 0 50)) (some none)
      let sb ← getF fs "score_breakdown" (decOpt decodeScoreBreakdown) (some none)
      let an ← getF fs "analysis" (decOpt decAnalysisPayload) (some none)
      let de ← getF fs "decision" (decOpt decStr) (some none)
      let no ← getF fs "notes" decStr (some "")
      let iu ← getF fs "implementation_url" (decOpt decStr) (some none)
      let co ← getF fs "commercialized" (decOpt decBool) (some none)
      pure ⟨i, t, u, pu, au, dt, so, pr, st, sc, sb, an, de, no, iu, co⟩
  | _ => none

/-- The bounds declared on `Paper` fields (`priority` 1–5, `score` 0–50,
nested breakdown bounds). -/
def validPaper (p : Paper) : Bool :=
  (1 ≤ p.priority && p.priority ≤ 5) &&
  (match p.score with
   | none => true
   | some n => 0 ≤ n && n ≤ 50) &&
  (match p.score_breakdown with
   | none => true
   | some b => validScoreBreakdown b)

/-- `RRD` model — the full research document. -/
structure RRD where
  project : String
  branchName : String := ""
  description : String := ""
  mission : Mission := {}
  requirements : Requirements
  domain_glossary : DomainGlossary := {}
  open_questions : List String := []
  phase : Phase := .discovery
  timing : Timing := {}
  handoff : Handoff := {}
  papers_pool : List Paper := []
  insights : List Insight := []
  visited_urls : List String := []
  blocked_sources : List String := []
  statistics : Statistics := {}

def encodeRRD (r : RRD) : Json :=
  .obj [("project", .str r.project),
        ("branchName", .str r.branchName),
        ("description", .str r.description),
        ("mission", encodeMission r.mission),
        ("requirements", encodeRequirements r.requirements),
        ("domain_glossary", encodeDomainGlossary r.domain_glossary),
        ("open_questions", encList .str r.open_questions),
        ("phase", encPhase r.phase),
        ("timing", encodeTiming r.timing),
        ("handoff", encodeHandoff r.handoff),
        ("papers_pool", encList encodePaper r.papers_pool),
        ("insights", encList encodeInsight r.insights),
        ("visited_urls", encList .str r.visited_urls),
        ("blocked_sources", encList .str r.blocked_sources),
        ("statistics", encodeStatistics r.statistics)]

def decodeRRD : Json → Option RRD
  | .obj fs => do
      let pj ← getF fs "project" decStr none
      let bn ← getF fs "branchName" decStr (some "")
      let ds ← getF fs "description" decStr (some "")
      let mi ← getF fs "mission" decodeMission (some {})
      let rq ← getF fs "requirements" decodeRequirements none
      let dg ← getF fs "domain_glossary" decodeDomainGlossary (some {})
      let oq ← getF fs "open_questions" (decList decStr) (some [])
      let ph ← getF fs "phase" decPhase (some .discovery)
      let ti ← getF fs "timing" decodeTiming (some {})
      let ho ← getF fs "handoff" decodeHandoff (some {})
      let pp ← getF fs "papers_pool" (decList decodePaper) (some [])
      let ins ← getF fs "insights" (decList decodeInsight) (some [])
      let vu ← getF fs "visited_urls" (decList decStr) (some [])
      let bs ← getF fs "blocked_sources" (decList decStr) (some [])
      let st ← getF fs "statistics" decodeStatistics (some {})
      pure ⟨pj, bn, ds, mi, rq, dg, oq, ph, ti, ho, pp, ins, vu, bs, st⟩
  | _ => none

/-- All `ge`/`le` bounds declared across the document's pydantic models. -/
def validRRD (r : RRD) : Bool :=
  validMission r.mission && validRequirements r.requirements &&
  validHandoff r.handoff && r.papers_pool.all validPaper

/-! ### Derived document views (`RRD` properties in `models/rrd.py`) -/

/-- `RRD.pending_papers`: papers with status `"pending"`. -/
def RRD.pending_papers (r : RRD) : List Paper :=
  r.papers_pool.filter (fun p => p.status == .pending)

/-- `RRD.analyzing_papers`: papers with status `"analyzing"`. -/
def RRD.analyzing_papers (r : RRD) : List Paper :=
  r.papers_pool.filter (fun p => p.status == .analyzing)

/-- `len(rrd.pending_papers) + len(rrd.analyzing_papers)` as computed at the
completion check of `ResearchLoop._run_iteration`. -/
def pendingCount (r : RRD) : Nat :=
  r.pending_papers.length + r.analyzing_papers.length

/-! ### State store (`rrd_manager.py`)

`save()` writes `json.loads(rrd.model_dump_json())` — i.e. `encodeRRD` — to a
`NamedTemporaryFile(dir=…, delete=False, suffix=".tmp")`, records
`temp_path = Path(f.name)` *after* `json.dump`, renames the temp file onto
`rrd.json`, and on `OSError` unlinks the temp file only when `temp_path` was
already recorded.  The model injects a failure at each of the four fallible
steps; `unlink` of an existing temp file is modelled as succeeding. -/

/-- The fallible steps of `RRDManager.save`. -/
inductive SaveFailure where
  | atCreate
  | atDump
  | atClose
  | atRename
  deriving DecidableEq, Repr

/-- Observable outcome of one `save()` call: whether the `OSError` propagated
to the caller, the content of `rrd.json`, and whether a `.tmp` file is left in
the project directory. -/
structure SaveOutcome where
  raised : Bool
  docFile : Option Json
  tempFile : Bool

/-- `RRDManager.save(rrd)` on a clean directory whose `rrd.json` holds `doc0`,
with a failure injected at `failAt` (or none). -/
def saveModel (rrd : RRD) (doc0 : Option Json) (failAt : Option SaveFailure) : SaveOutcome :=
  -- temp_path = None
  if failAt = some .atCreate then
    -- `NamedTemporaryFile(...)` itself raised: no temp file was created and
    -- `temp_path` is still None, so the except-branch re-raises without cleanup.
    { raised := true, docFile := doc0, tempFile := false }
  else
    -- the temp file now exists on disk
    if failAt = some .atDump then
      -- `json.dump` raised *before* `temp_path = Path(f.name)` ran, so the
      -- except-branch's `if temp_path` guard is False: no cleanup, re-raise.
      { raised := true, docFile := doc0, tempFile := true }
    else
      -- `temp_path = Path(f.name)` has run; the `with` block closes the file
      if failAt = some .atClose then
        -- close/flush raised; `temp_path` is set, so the temp file is unlinked
        { raised := true, docFile := doc0, tempFile := false }
      else if failAt = some .atRename then
        -- `temp_path.replace(self.rrd_path)` raised; temp file unlinked
        { raised := true, docFile := doc0, tempFile := false }
      else
        { raised := false, docFile := some (encodeRRD rrd), tempFile := false }

/-- `RRDManager.update_target_papers(target, force)`: returns the `bool`
result together with the document as persisted afterwards (unchanged when the
update is rejected).  The assignment
`rrd.requirements.target_papers = target` is unvalidated (no
`validate_assignment` on the model). -/
def update_target_papers (r : RRD) (target : Int) (force : Bool) : Bool × RRD :=
  if ¬force && (decide (r.phase ≠ .discovery) || decide (r.statistics.total_analyzed > 0)) then
    (false, r)
  else
    (true, { r with requirements := { r.requirements with target_papers := target } })

/-- `RRDManager.reset()` on the loaded document: phase back to DISCOVERY,
papers and insights cleared, the five statistics counters zeroed; nothing else
is touched. -/
def reset (r : RRD) : RRD :=
  { r with
    phase := .discovery,
    papers_pool := [],
    insights := [],
    statistics := { r.statistics with
      total_discovered := 0,
      total_analyzed := 0,
      total_presented := 0,
      total_rejected := 0,
      total_insights_extracted := 0 } }

/-! ### Orchestration loop (`research_loop.py`)

The external agent owns the document between the loop's two loads, so one
iteration of the loop is driven by an environment record: the document found
on disk at the iteration's initial `load()`, the agent invocation's result,
and the document found on disk afterwards (used by the post-success reload
and by `run()`'s final load). -/

/-- `IterationResult` dataclass. -/
structure IterationResult where
  iteration : Nat
  success : Bool
  agent_result : AgentResult
  phase : Phase
  papers_delta : Int := 0
  should_continue : Bool := true
  is_complete : Bool := false
  error_message : Option String := none
  deriving DecidableEq, Repr

/-- `LoopResult` dataclass. -/
structure LoopResult where
  completed : Bool
  iterations_run : Nat
  final_phase : Phase
  total_analyzed : Int
  total_presented : Int
  total_insights : Int
  error_message : Option String := none
  deriving DecidableEq, Repr

/-- Environment of one iteration: `loaded` is the document at the iteration's
initial `load()`, `agent` the invocation outcome, `reloaded` the document on
disk after the invocation. -/
structure IterEnv where
  loaded : RRD
  agent : AgentResult
  reloaded : RRD

/-- Everything observable from one `_run_iteration` call: the returned
result, the updated `consecutive_failures` counter, the document persisted by
the phase-consistency correction before the agent was invoked (if any), the
phase passed to `on_iteration_start`, and the result passed to
`on_iteration_end` (on failure this is the pre-threshold-override value). -/
structure IterStep where
  result : IterationResult
  newFailures : Nat
  savedBeforeAgent : Option RRD
  startCallbackPhase : Phase
  endCallbackResult : IterationResult

/-- The phase-consistency check at the top of `_run_iteration`: if the loaded
phase is ANALYSIS but `len(papers_pool) < target_papers`, revert to DISCOVERY
and persist via `save()` before anything else.  Returns the (possibly
corrected) phase and the document persisted by the correction, if any. -/
def phaseCorrection (rrd : RRD) : Phase × Option RRD :=
  if rrd.phase = .analysis ∧ (rrd.papers_pool.length : Int) < rrd.requirements.target_papers
  then (.discovery, some { rrd with phase := .discovery })
  else (rrd.phase, none)

/-- Failure branch of `_run_iteration` (`agent_result.success` false):
`consecutive_failures` was already incremented to `cf`; the retry table
decides continuation; `on_iteration_end` sees the classified message, and the
threshold check afterwards overrides `should_continue` and the message. -/
def failureStep (maxFailures cf iteration : Nat) (phase : Phase)
    (savedDoc : Option RRD) (ar : AgentResult) : IterStep :=
  let error_type := ar.error_type.getD .unknown
  let should_retry := (get_retry_delay error_type).2
  let preResult : IterationResult :=
    { iteration := iteration, success := false, agent_result := ar, phase := phase,
      should_continue := should_retry && decide (cf < maxFailures),
      error_message := some (error_type.value ++ ": " ++ strTake ar.output 200) }
  let result :=
    if maxFailures ≤ cf then
      { preResult with
        should_continue := false,
        error_message := some ("Too many consecutive failures (" ++ toString cf ++ ")") }
    else preResult
  { result := result, newFailures := cf, savedBeforeAgent := savedDoc,
    startCallbackPhase := phase, endCallbackResult := preResult }

/-- Success branch of `_run_iteration`: reset the failure counter, reload the
document, compute the analyzed delta, and declare completion only if the
completion signal was emitted or the reloaded phase is COMPLETE, *and* no
paper is pending or analyzing, *and* the analyzed counter is positive. -/
def successStep (iteration : Nat) (analyzed_before : Int) (phase : Phase)
    (savedDoc : Option RRD) (ar : AgentResult) (rrd2 : RRD) : IterStep :=
  let analyzed_after := rrd2.statistics.total_analyzed
  let pending_count := pendingCount rrd2
  let is_complete :=
    (ar.is_complete && (pending_count == 0) && decide (analyzed_after > 0)) ||
    ((rrd2.phase == .complete) && (pending_count == 0) && decide (analyzed_after > 0))
  let result : IterationResult :=
    { iteration := iteration, success := true, agent_result := ar,
      phase := rrd2.phase, papers_delta := analyzed_after - analyzed_before,
      should_continue := !is_complete, is_complete := is_complete }
  { result := result, newFailures := 0, savedBeforeAgent := savedDoc,
    startCallbackPhase := phase, endCallbackResult := result }

/-- `ResearchLoop._run_iteration`. -/
def runIteration (maxFailures cf iteration : Nat) (env : IterEnv) : IterStep :=
  let pc := phaseCorrection env.loaded
  if env.agent.success then
    successStep iteration env.loaded.statistics.total_analyzed pc.1 pc.2 env.agent env.reloaded
  else
    failureStep maxFailures (cf + 1) iteration pc.1 pc.2 env.agent

/-- The `LoopResult` built from the document `d` on disk when the loop ends. -/
def loopResultFrom (completed : Bool) (iterations : Nat) (d : RRD)
    (msg : Option String) : LoopResult :=
  { completed := completed, iterations_run := iterations, final_phase := d.phase,
    total_analyzed := d.statistics.total_analyzed,
    total_presented := d.statistics.total_presented,
    total_insights := d.statistics.total_insights_extracted,
    error_message := msg }

/-- The `for i in range(1, max_iterations + 1)` loop of `ResearchLoop.run`:
`i` is the next iteration index, `cf` the consecutive-failure counter,
`envs` the remaining scripted environments, `lastDoc` the document currently
on disk. -/
def runLoopAux (maxFailures maxIterations : Nat) :
    Nat → Nat → List IterEnv → RRD → LoopResult
  | _, _, [], lastDoc =>
      loopResultFrom false maxIterations lastDoc
        (some ("Max iterations (" ++ toString maxIterations ++ ") reached"))
  | i, cf, env :: rest, lastDoc =>
      if maxIterations < i then
        loopResultFrom false maxIterations lastDoc
          (some ("Max iterations (" ++ toString maxIterations ++ ") reached"))
      else
        let step := runIteration maxFailures cf i env
        if step.result.should_continue then
          runLoopAux maxFailures maxIterations (i + 1) step.newFailures rest env.reloaded
        else
          loopResultFrom step.result.is_complete i env.reloaded
            step.result.error_message

/-- `ResearchLoop.run` after a passing preflight `validate()`. -/
def runLoop (maxFailures maxIterations : Nat) (envs : List IterEnv)
    (initialDoc : RRD) : LoopResult :=
  runLoopAux maxFailures maxIterations 1 0 envs initialDoc

/-! ### Concrete sample values used to instantiate the theorems -/

/-- A fully-scored analyzed paper. -/
def samplePaper : Paper :=
  { id := "arxiv_2501.12345", title := "Sample", url := "http://example.org/p",
    status := .presented, score := some 30, score_breakdown := some {},
    analysis := some (.inl "solid baseline") }

/-- A paper still awaiting analysis. -/
def pendingPaper : Paper :=
  { id := "arxiv_2501.54321", title := "Pending", url := "http://example.org/q" }

/-- A document in ANALYSIS phase whose pool (1 paper) is below its target (5). -/
def sampleRRD : RRD :=
  { project := "AI Robotics Research",
    requirements := { focus_area := "robotics", target_papers := 5 },
    phase := .analysis,
    papers_pool := [samplePaper],
    insights := [{ id := "ins_1", paper_id := "arxiv_2501.12345", insight := "neat" }],
    statistics := { total_analyzed := 1 } }

/-- A freshly created document: DISCOVERY phase, nothing analyzed. -/
def freshRRD : RRD :=
  { project := "fresh", requirements := { focus_area := "agents" } }

/-- A finished document: no pending or analyzing papers, five analyzed. -/
def doneRRD : RRD :=
  { project := "fresh",
    requirements := { focus_area := "agents", target_papers := 5 },
    phase := .ideation,
    papers_pool := [samplePaper],
    statistics := { total_analyzed := 5 } }

/-- A successful invocation whose output carries the completion signal. -/
def successAgent : AgentResult :=
  { output := "analyzing papers\n<promise>COMPLETE</promise>\n",
    exit_code := 0, success := true }

/-- A failed invocation classified as a (retryable) rate limit. -/
def rateLimitAgent : AgentResult :=
  { output := "HTTP 429 Too Many Requests", exit_code := 1, success := false,
    error_type := some .rate_limit }

/-- A failed invocation classified as (non-retryable) Forbidden. -/
def forbiddenAgent : AgentResult :=
  { output := "Error 403 Forbidden", exit_code := 1, success := false,
    error_type := some .forbidden }

/-- Iteration environment that completes. -/
def completeEnv : IterEnv :=
  { loaded := freshRRD, agent := successAgent, reloaded := doneRRD }

/-- Iteration environment that fails with a retryable error. -/
def failEnv : IterEnv :=
  { loaded := freshRRD, agent := rateLimitAgent, reloaded := freshRRD }

/-- Iteration environment loading the under-target ANALYSIS document. -/
def analysisEnv : IterEnv :=
  { loaded := sampleRRD, agent := successAgent, reloaded := sampleRRD }

/-- Iteration environment that fails with a non-retryable error. -/
def forbiddenEnv : IterEnv :=
  { loaded := freshRRD, agent := forbiddenAgent, reloaded := freshRRD }

/-- A codex process run that leaves a nonempty last message. -/
def codexBehavior : ProcBehavior :=
  { exitCode := 0, outStream := "done\n", lastMessage := "FINAL ANSWER" }

/-- An amp process run failing with network noise on two lines. -/
def ampBehavior : ProcBehavior :=
  { exitCode := 1, outStream := "network error\nconnection reset\n",
    lastMessage := "" }

/-- A modified document to be saved over `sampleRRD`. -/
def updatedRRD : RRD :=
  { sampleRRD with description := "updated" }

/-! ### Supporting lemmas -/

/-- Joining the split lines recovers the stream. -/
theorem join_splitLinesChars : ∀ (cs acc : List Char),
    (splitLinesChars acc cs).flatten = acc.reverse ++ cs := by
  intro cs
  induction cs with
  | nil =>
      intro acc
      by_cases h : acc.isEmpty
      · simp [splitLinesChars, h, List.isEmpty_iff.mp h]
      · simp [splitLinesChars, h]
  | cons c cs ih =>
      intro acc
      by_cases h : c == '\n'
      · simp only [splitLinesChars, if_pos h, List.flatten_cons, ih []]
        simp [beq_iff_eq.mp h]
      · simp only [splitLinesChars, if_neg h, ih (c :: acc)]
        simp

/-- Unpacking `String.mk` recovers the character lists. -/
theorem map_data_mk (l : List (List Char)) : (l.map String.mk).map String.data = l := by
  induction l with
  | nil => rfl
  | cons a l ih => simp [ih]

/-- `"".join` of the streamed lines is the original stream. -/
theorem joinStrings_toLines (s : String) : joinStrings (toLines s) = s := by
  show String.mk _ = s
  rw [show ((toLines s).map String.data) = splitLinesChars [] s.data from
    map_data_mk _]
  rw [join_splitLinesChars]
  rfl

theorem decOpt_encOpt {α : Type} (dec : Json → Option α) (enc : α → Json)
    (o : Option α) (henc : ∀ a, enc a ≠ .null)
    (h : ∀ a ∈ o, dec (enc a) = some a) :
    decOpt dec (encOpt enc o) = some o := by
  cases o with
  | none => rfl
  | some a =>
      have hd := h a rfl
      show decOpt dec (enc a) = some (some a)
      cases he : enc a
      case null => exact absurd he (henc a)
      all_goals (rw [he] at hd; simp [decOpt, hd])

theorem decList_encList {α : Type} (dec : Json → Option α) (enc : α → Json)
    (l : List α) (h : ∀ a ∈ l, dec (enc a) = some a) :
    decList dec (encList enc l) = some l := by
  show decList.decListAux dec (l.map enc) = some l
  induction l with
  | nil => rfl
  | cons a as ih =>
      simp only [List.map_cons, decList.decListAux, h a (by simp),
        ih (fun a ha => h a (by simp [ha])), Option.bind_eq_bind,
        Option.some_bind, Option.pure_def]

theorem decStrDict_encStrDict (d : List (String × String)) :
    decStrDict (encStrDict d) = some d := by
  show decStrDict.decStrDictAux (d.map _) = some d
  induction d with
  | nil => rfl
  | cons p rest ih =>
      simp only [List.map_cons, decStrDict.decStrDictAux, ih,
        Option.bind_eq_bind, Option.some_bind, Option.pure_def]

theorem decOptStr_enc (o : Option String) :
    decOpt decStr (encOpt .str o) = some o :=
  decOpt_encOpt _ _ o (fun a => by simp) (fun _ _ => rfl)

theorem decOptInt_enc (o : Option Int) :
    decOpt decInt (encOpt .int o) = some o :=
  decOpt_encOpt _ _ o (fun a => by simp) (fun _ _ => rfl)

theorem decOptRat_enc (o : Option Rat) :
    decOpt decRat (encOpt .num o) = some o :=
  decOpt_encOpt _ _ o (fun a => by simp) (fun _ _ => rfl)

theorem decOptBool_enc (o : Option Bool) :
    decOpt decBool (encOpt .bool o) = some o :=
  decOpt_encOpt _ _ o (fun a => by simp) (fun _ _ => rfl)

theorem decListStr_enc (l : List String) :
    decList decStr (encList .str l) = some l :=
  decList_encList _ _ _ (fun _ _ => rfl)

theorem decOptIntRange_enc (lo hi : Int) (o : Option Int)
    (h : ∀ a ∈ o, lo ≤ a ∧ a ≤ hi) :
    decOpt (decIntRange lo hi) (encOpt .int o) = some o :=
  decOpt_encOpt _ _ o (fun a => by simp)
    (fun a ha => by simp [decIntRange, (h a ha).1, (h a ha).2])

theorem decPhase_enc (p : Phase) : decPhase (encPhase p) = some p := by
  cases p <;> rfl

theorem decStatus_enc (s : PaperStatus) : decStatus (encStatus s) = some s := by
  cases s <;> rfl

theorem decodeMission_enc (m : Mission) (h : validMission m = true) :
    decodeMission (encodeMission m) = some m := by
  simp only [validMission, Bool.and_eq_true, decide_eq_true_eq] at h
  obtain ⟨⟨h1, h2⟩, h3, h4⟩ := h
  simp [decodeMission, encodeMission, getF, jLookup, decBool, decStr, decIntRange,
    h1, h2, h3, h4]

theorem decodeRequirements_enc (r : Requirements) (h : validRequirements r = true) :
    decodeRequirements (encodeRequirements r) = some r := by
  simp only [validRequirements, Bool.and_eq_true, decide_eq_true_eq] at h
  obtain ⟨⟨h1, h2⟩, h3, h4⟩ := h
  simp [decodeRequirements, encodeRequirements, getF, jLookup, decStr, decInt,
    decIntGe, decIntRange, decListStr_enc, h1, h2, h3, h4]

theorem decodePhaseTiming_enc (t : PhaseTiming) :
    decodePhaseTiming (encodePhaseTiming t) = some t := by
  simp [decodePhaseTiming, encodePhaseTiming, getF, jLookup,
    decOptStr_enc, decOptInt_enc]

theorem decodeAnalysisTiming_enc (t : AnalysisTiming) :
    decodeAnalysisTiming (encodeAnalysisTiming t) = some t := by
  simp [decodeAnalysisTiming, encodeAnalysisTiming, getF, jLookup,
    decOptStr_enc, decOptInt_enc, decOptRat_enc, decInt]

theorem decodeTiming_enc (t : Timing) :
    decodeTiming (encodeTiming t) = some t := by
  simp [decodeTiming, encodeTiming, getF, jLookup, decOptStr_enc,
    decodePhaseTiming_enc, decodeAnalysisTiming_enc]

theorem decodeProductIdeationConfig_enc (c : ProductIdeationConfig)
    (h : validProductIdeationConfig c = true) :
    decodeProductIdeationConfig (encodeProductIdeationConfig c) = some c := by
  simp only [validProductIdeationConfig, Bool.and_eq_true, decide_eq_true_eq] at h
  obtain ⟨h1, h2⟩ := h
  simp [decodeProductIdeationConfig, encodeProductIdeationConfig, getF, jLookup,
    decBool, decStr, decIntGe, decJsonDict, h1, h2]

theorem decodeHandoff_enc (h : Handoff) (hv : validHandoff h = true) :
    decodeHandoff (encodeHandoff h) = some h := by
  simp [decodeHandoff, encodeHandoff, getF, jLookup,
    decodeProductIdeationConfig_enc h.product_ideation hv]

theorem decodeInsight_enc (i : Insight) :
    decodeInsight (encodeInsight i) = some i := by
  simp [decodeInsight, encodeInsight, getF, jLookup, decStr,
    decListStr_enc, decOptStr_enc]

theorem decodeDiscoveryMetrics_enc (m : DiscoveryMetrics) :
    decodeDiscoveryMetrics (encodeDiscoveryMetrics m) = some m := by
  simp [decodeDiscoveryMetrics, encodeDiscoveryMetrics, getF, jLookup,
    decListStr_enc, decStrDict_encStrDict]

theorem decodeScoreDistribution_enc (d : ScoreDistribution) :
    decodeScoreDistribution (encodeScoreDistribution d) = some d := by
  simp [decodeScoreDistribution, encodeScoreDistribution, getF2, getF,
    jLookup, decInt]

theorem decodeBlueOceanDistribution_enc (d : BlueOceanDistribution) :
    decodeBlueOceanDistribution (encodeBlueOceanDistribution d) = some d := by
  simp [decodeBlueOceanDistribution, encodeBlueOceanDistribution, getF2, getF,
    jLookup, decInt]

theorem decodeAnalysisMetrics_enc (m : AnalysisMetrics) :
    decodeAnalysisMetrics (encodeAnalysisMetrics m) = some m := by
  simp [decodeAnalysisMetrics, encodeAnalysisMetrics, getF, jLookup, decRat,
    decodeScoreDistribution_enc, decodeBlueOceanDistribution_enc]

theorem decodeIdeationMetrics_enc (m : IdeationMetrics) :
    decodeIdeationMetrics (encodeIdeationMetrics m) = some m := by
  simp [decodeIdeationMetrics, encodeIdeationMetrics, getF, jLookup, decInt,
    decOptStr_enc]

theorem decodeStatistics_enc (s : Statistics) :
    decodeStatistics (encodeStatistics s) = some s := by
  simp [decodeStatistics, encodeStatistics, getF, jLookup, decInt,
    decodeDiscoveryMetrics_enc, decodeAnalysisMetrics_enc,
    decodeIdeationMetrics_enc]

theorem decodeDomainGlossary_enc (g : DomainGlossary) :
    decodeDomainGlossary (encodeDomainGlossary g) = some g := by
  simp [decodeDomainGlossary, encodeDomainGlossary, getF, jLookup, decBool,
    decStrDict_encStrDict]

theorem decodeScoreBreakdown_enc (b : ScoreBreakdown)
    (h : validScoreBreakdown b = true) :
    decodeScoreBreakdown (encodeScoreBreakdown b) = some b := by
  simp only [validScoreBreakdown, Bool.and_eq_true, decide_eq_true_eq] at h
  obtain ⟨⟨⟨⟨⟨⟨⟨⟨⟨⟨a1, a2⟩, ⟨a3, a4⟩⟩, ⟨a5, a6⟩⟩, ⟨a7, a8⟩⟩, ⟨a9, a10⟩⟩,
    ⟨a11, a12⟩⟩, ⟨a13, a14⟩⟩, ⟨a15, a16⟩⟩, ⟨a17, a18⟩⟩, a19, a20⟩ := h
  simp [decodeScoreBreakdown, encodeScoreBreakdown, getF, jLookup, decIntRange,
    a1, a2, a3, a4, a5, a6, a7, a8, a9, a10, a11, a12, a13, a14, a15, a16,
    a17, a18, a19, a20]

theorem decOptAnalysisPayload_enc (o : Option (String ⊕ List (String × Json))) :
    decOpt decAnalysisPayload (encOpt encAnalysisPayload o) = some o :=
  decOpt_encOpt _ _ o (fun a => by cases a <;> simp [encAnalysisPayload])
    (fun a _ => by cases a <;> rfl)

theorem decodePaper_enc (p : Paper) (h : validPaper p = true) :
    decodePaper (encodePaper p) = some p := by
  simp only [validPaper, Bool.and_eq_true, decide_eq_true_eq] at h
  obtain ⟨⟨⟨h1, h2⟩, hs⟩, hb⟩ := h
  have hscore : decOpt (decIntRange 0 50) (encOpt .int p.score) = some p.score := by
    refine decOptIntRange_enc 0 50 p.score (fun a ha => ?_)
    cases hc : p.score with
    | none => rw [hc] at ha; cases ha
    | some n =>
        rw [hc] at ha hs
        simp only [Option.mem_some_iff] at ha
        subst ha
        simpa using hs
  have hbrk : decOpt decodeScoreBreakdown (encOpt encodeScoreBreakdown p.score_breakdown)
      = some p.score_breakdown := by
    refine decOpt_encOpt _ _ _ (fun a => by simp [encodeScoreBreakdown]) (fun a ha => ?_)
    cases hc : p.score_breakdown with
    | none => rw [hc] at ha; cases ha
    | some b =>
        rw [hc] at ha hb
        simp only [Option.mem_some_iff] at ha
        subst ha
        exact decodeScoreBreakdown_enc b hb
  simp [decodePaper, encodePaper, getF, jLookup, decStr, decIntRange,
    decStatus_enc, decOptStr_enc, decListStr_enc, decOptBool_enc,
    decOptAnalysisPayload_enc, hscore, hbrk, h1, h2]

/-- Any document accepted by `load()` validates; conversely, `save()` followed
by `load()` of a valid document reproduces it field-for-field. -/
theorem decodeRRD_enc (r : RRD) (h : validRRD r = true) :
    decodeRRD (encodeRRD r) = some r := by
  simp only [validRRD, Bool.and_eq_true, decide_eq_true_eq] at h
  obtain ⟨⟨⟨hm, hr⟩, hh⟩, hp⟩ := h
  have hpapers : decList decodePaper (encList encodePaper r.papers_pool)
      = some r.papers_pool :=
    decList_encList _ _ _ (fun p hmem =>
      decodePaper_enc p (by
        rw [List.all_eq_true] at hp
        exact hp p hmem))
  simp [decodeRRD, encodeRRD, getF, jLookup, decStr, decPhase_enc,
    decodeMission_enc r.mission hm, decodeRequirements_enc r.requirements hr,
    decodeDomainGlossary_enc, decListStr_enc, decodeTiming_enc,
    decodeHandoff_enc r.handoff hh, hpapers,
    decList_encList decodeInsight encodeInsight r.insights
      (fun i _ => decodeInsight_enc i),
    decodeStatistics_enc]

/-- Both branches of `_run_iteration` propagate the phase-correction data
unchanged into the step record. -/
theorem runIteration_correction_fields (maxF cf i : Nat) (env : IterEnv) :
    (runIteration maxF cf i env).savedBeforeAgent = (phaseCorrection env.loaded).2 ∧
    (runIteration maxF cf i env).startCallbackPhase = (phaseCorrection env.loaded).1 := by
  cases h : env.agent.success <;>
    simp [runIteration, h, successStep, failureStep]

/-- Failure branch, threshold reached: the iteration stops the loop with the
"Too many consecutive failures" message. -/
theorem runIteration_failure_threshold (maxF cf i : Nat) (env : IterEnv)
    (hf : env.agent.success = false) (hth : maxF ≤ cf + 1) :
    (runIteration maxF cf i env).newFailures = cf + 1 ∧
    (runIteration maxF cf i env).result.should_continue = false ∧
    (runIteration maxF cf i env).result.is_complete = false ∧
    (runIteration maxF cf i env).result.error_message =
      some ("Too many consecutive failures (" ++ toString (cf + 1) ++ ")") := by
  simp [runIteration, hf, failureStep, hth]

/-- Failure branch, below the threshold: continuation is decided by the retry
table, and the message is the classified one. -/
theorem runIteration_failure_below (maxF cf i : Nat) (env : IterEnv)
    (hf : env.agent.success = false) (hth : cf + 1 < maxF) :
    (runIteration maxF cf i env).newFailures = cf + 1 ∧
    (runIteration maxF cf i env).result.should_continue =
      (get_retry_delay (env.agent.error_type.getD .unknown)).2 ∧
    (runIteration maxF cf i env).result.is_complete = false ∧
    (runIteration maxF cf i env).result.error_message =
      some ((env.agent.error_type.getD .unknown).value ++ ": " ++
        strTake env.agent.output 200) := by
  have hnle : ¬ maxF ≤ cf + 1 := by omega
  simp [runIteration, hf, failureStep, hnle, hth]

/-- Success branch: the failure counter resets and completion is equivalent to
(signal or COMPLETE phase) together with a drained pool and a positive
analyzed counter. -/
theorem runIteration_success (maxF cf i : Nat) (env : IterEnv)
    (hs : env.agent.success = true) :
    (runIteration maxF cf i env).newFailures = 0 ∧
    ((runIteration maxF cf i env).result.is_complete = true ↔
      ((env.agent.is_complete = true ∨ env.reloaded.phase = .complete) ∧
        pendingCount env.reloaded = 0 ∧
        env.reloaded.statistics.total_analyzed > 0)) := by
  refine ⟨by simp [runIteration, hs, successStep], ?_⟩
  simp only [runIteration, hs, if_true, successStep]
  simp only [Bool.or_eq_true, Bool.and_eq_true, beq_iff_eq, decide_eq_true_eq]
  tauto

/-- A completed iteration implies a successful invocation, a drained pool and
a positive analyzed counter. -/
theorem runIteration_complete (maxF cf i : Nat) (env : IterEnv)
    (h : (runIteration maxF cf i env).result.is_complete = true) :
    env.agent.success = true ∧ pendingCount env.reloaded = 0 ∧
      env.reloaded.statistics.total_analyzed > 0 := by
  cases hs : env.agent.success with
  | false =>
      exfalso
      by_cases hth : maxF ≤ cf + 1
      · exact absurd h (by simp [(runIteration_failure_threshold maxF cf i env hs hth).2.2.1])
      · exact absurd h
          (by simp [(runIteration_failure_below maxF cf i env hs (by omega)).2.2.1])
  | true =>
      have := ((runIteration_success maxF cf i env hs).2).mp h
      exact ⟨rfl, this.2.1, this.2.2⟩

/-- Lifting `runIteration_complete` through the loop: a completed run contains
an iteration whose reloaded document is drained with positive analyzed count. -/
theorem runLoopAux_completed (maxF maxI : Nat) :
    ∀ (envs : List IterEnv) (i cf : Nat) (d : RRD),
      (runLoopAux maxF maxI i cf envs d).completed = true →
      ∃ env ∈ envs, env.agent.success = true ∧ pendingCount env.reloaded = 0 ∧
        env.reloaded.statistics.total_analyzed > 0 := by
  intro envs
  induction envs with
  | nil =>
      intro i cf d h
      simp [runLoopAux, loopResultFrom] at h
  | cons env rest ih =>
      intro i cf d h
      simp only [runLoopAux] at h
      by_cases hmi : maxI < i
      · rw [if_pos hmi] at h
        simp [loopResultFrom] at h
      · rw [if_neg hmi] at h
        by_cases hc : (runIteration maxF cf i env).result.should_continue = true
        · rw [if_pos hc] at h
          obtain ⟨e, he, hrest⟩ := ih (i + 1) (runIteration maxF cf i env).newFailures
            env.reloaded h
          exact ⟨e, List.mem_cons_of_mem env he, hrest⟩
        · rw [if_neg hc] at h
          have hcomp : (runIteration maxF cf i env).result.is_complete = true := h
          exact ⟨env, List.mem_cons_self env rest, runIteration_complete maxF cf i env hcomp⟩

/-- A scripted all-failing retryable suffix of length `maxF - cf` drives the
loop into the consecutive-failure abort with the threshold message. -/
theorem runLoopAux_too_many (maxF maxI : Nat) :
    ∀ (envs : List IterEnv) (i cf : Nat) (d : RRD),
      envs ≠ [] →
      cf + envs.length = maxF →
      i + envs.length ≤ maxI + 1 →
      (∀ env ∈ envs, env.agent.success = false ∧
        (get_retry_delay (env.agent.error_type.getD .unknown)).2 = true) →
      (runLoopAux maxF maxI i cf envs d).completed = false ∧
      (runLoopAux maxF maxI i cf envs d).error_message =
        some ("Too many consecutive failures (" ++ toString maxF ++ ")") := by
  intro envs
  induction envs with
  | nil => intro i cf d hne; exact absurd rfl hne
  | cons env rest ih =>
      intro i cf d _ hlen hfuel hall
      have hf : env.agent.success = false := (hall env (List.mem_cons_self env rest)).1
      have hmi : ¬ maxI < i := by
        simp only [List.length_cons] at hfuel
        omega
      cases rest with
      | nil =>
          simp only [List.length_cons, List.length_nil] at hlen
          have hth : maxF ≤ cf + 1 := by omega
          have hstep := runIteration_failure_threshold maxF cf i env hf hth
          simp only [runLoopAux, if_neg hmi]
          rw [if_neg (by simp [hstep.2.1])]
          have hcf : cf + 1 = maxF := by omega
          simp [loopResultFrom, hstep.2.2.1, hstep.2.2.2, hcf]
      | cons env2 rest2 =>
          have hth : cf + 1 < maxF := by
            simp only [List.length_cons] at hlen
            omega
          have hstep := runIteration_failure_below maxF cf i env hf hth
          have hretry : (get_retry_delay (env.agent.error_type.getD .unknown)).2 = true :=
            (hall env (List.mem_cons_self env _)).2
          simp only [runLoopAux, if_neg hmi]
          rw [if_pos (by rw [hstep.2.1]; exact hretry)]
          rw [hstep.1]
          refine ih (i + 1) (cf + 1) env.reloaded (by simp) ?_ ?_ ?_
          · simp only [List.length_cons] at hlen ⊢
            omega
          · simp only [List.length_cons] at hfuel ⊢
            omega
          · intro e he
            exact hall e (List.mem_cons_of_mem env he)

/-! ### Claim theorems -/

/-- C1: completion is declared (`LoopResult.completed`,
`IterationResult.is_complete`) only when the document reloaded after a
successful agent invocation has zero pending-or-analyzing items and
`statistics.total_analyzed > 0`; never while any item remains pending or
analyzing, even if the output carries the completion signal or the reloaded
phase is COMPLETE. -/
theorem C1_completion_only_when_drained :
    (∀ (maxF cf i : Nat) (env : IterEnv),
        (runIteration maxF cf i env).result.is_complete = true →
        env.agent.success = true ∧ pendingCount env.reloaded = 0 ∧
          env.reloaded.statistics.total_analyzed > 0) ∧
    (∀ (maxF maxI : Nat) (envs : List IterEnv) (d : RRD),
        (runLoop maxF maxI envs d).completed = true →
        ∃ env ∈ envs, env.agent.success = true ∧ pendingCount env.reloaded = 0 ∧
          env.reloaded.statistics.total_analyzed > 0) :=
  ⟨runIteration_complete,
   fun maxF maxI envs d h => runLoopAux_completed maxF maxI envs 1 0 d h⟩

/-- Witness for C1 on a one-iteration completing trace. -/
theorem C1_witness :
    (completeEnv.agent.success = true ∧ pendingCount completeEnv.reloaded = 0 ∧
      completeEnv.reloaded.statistics.total_analyzed > 0) ∧
    (∃ env ∈ [completeEnv], env.agent.success = true ∧
      pendingCount env.reloaded = 0 ∧
      env.reloaded.statistics.total_analyzed > 0) :=
  ⟨C1_completion_only_when_drained.1 3 0 1 completeEnv (by rfl),
   C1_completion_only_when_drained.2 3 11 [completeEnv] freshRRD (by rfl)⟩

/-- C2: when the loaded phase is ANALYSIS and the pool is below
`target_papers`, the iteration persists the DISCOVERY-corrected document
before invoking the agent and reports DISCOVERY to the iteration-start
callback; in every other case the loaded phase is left unchanged and nothing
is persisted before the agent runs. -/
theorem C2_phase_consistency_correction (maxF cf i : Nat) (env : IterEnv) :
    (env.loaded.phase = .analysis →
      (env.loaded.papers_pool.length : Int) < env.loaded.requirements.target_papers →
      (runIteration maxF cf i env).savedBeforeAgent =
        some { env.loaded with phase := .discovery } ∧
      (runIteration maxF cf i env).startCallbackPhase = .discovery) ∧
    (¬ (env.loaded.phase = .analysis ∧
        (env.loaded.papers_pool.length : Int) < env.loaded.requirements.target_papers) →
      (runIteration maxF cf i env).savedBeforeAgent = none ∧
      (runIteration maxF cf i env).startCallbackPhase = env.loaded.phase) := by
  obtain ⟨hs, hp⟩ := runIteration_correction_fields maxF cf i env
  constructor
  · intro h1 h2
    rw [hs, hp]
    unfold phaseCorrection
    rw [if_pos ⟨h1, h2⟩]
    exact ⟨rfl, rfl⟩
  · intro hno
    rw [hs, hp]
    unfold phaseCorrection
    rw [if_neg hno]
    exact ⟨rfl, rfl⟩

/-- Witness for C2: the under-target ANALYSIS document is corrected, the
in-phase DISCOVERY document is not. -/
theorem C2_witness :
    ((runIteration 3 0 1 analysisEnv).savedBeforeAgent =
        some { analysisEnv.loaded with phase := .discovery } ∧
      (runIteration 3 0 1 analysisEnv).startCallbackPhase = .discovery) ∧
    ((runIteration 3 0 1 completeEnv).savedBeforeAgent = none ∧
      (runIteration 3 0 1 completeEnv).startCallbackPhase = completeEnv.loaded.phase) :=
  ⟨(C2_phase_consistency_correction 3 0 1 analysisEnv).1 (by rfl) (by decide),
   (C2_phase_consistency_correction 3 0 1 completeEnv).2 (by decide)⟩

/-- C3: `maxF` consecutive retryable failures abort the run with
completion=false and the message "Too many consecutive failures (maxF)"; a
non-retryable failure below the threshold stops the iteration with the
classified error message; a successful iteration resets the
consecutive-failure counter to zero. -/
theorem C3_consecutive_failure_policy :
    (∀ (maxF maxI : Nat) (envs : List IterEnv) (d : RRD),
        1 ≤ maxF → envs.length = maxF → maxF ≤ maxI →
        (∀ env ∈ envs, env.agent.success = false ∧
          (get_retry_delay (env.agent.error_type.getD .unknown)).2 = true) →
        (runLoop maxF maxI envs d).completed = false ∧
        (runLoop maxF maxI envs d).error_message =
          some ("Too many consecutive failures (" ++ toString maxF ++ ")")) ∧
    (∀ (maxF cf i : Nat) (env : IterEnv),
        env.agent.success = false →
        (get_retry_delay (env.agent.error_type.getD .unknown)).2 = false →
        cf + 1 < maxF →
        (runIteration maxF cf i env).result.should_continue = false ∧
        (runIteration maxF cf i env).result.error_message =
          some ((env.agent.error_type.getD .unknown).value ++ ": " ++
            strTake env.agent.output 200)) ∧
    (∀ (maxF cf i : Nat) (env : IterEnv),
        env.agent.success = true →
        (runIteration maxF cf i env).newFailures = 0) := by
  refine ⟨?_, ?_, ?_⟩
  · intro maxF maxI envs d h1 h2 h3 hall
    refine runLoopAux_too_many maxF maxI envs 1 0 d ?_ (by omega) (by omega) hall
    intro hnil
    rw [hnil] at h2
    simp only [List.length_nil] at h2
    omega
  · intro maxF cf i env hf hr hth
    have h := runIteration_failure_below maxF cf i env hf hth
    exact ⟨by rw [h.2.1, hr], h.2.2.2⟩
  · intro maxF cf i env hs
    exact (runIteration_success maxF cf i env hs).1

/-- Witness for C3: threshold 2 reached by two rate-limit failures; a 403 on
the first iteration stops with the classified message; a success resets the
counter. -/
theorem C3_witness :
    ((runLoop 2 8 [failEnv, failEnv] freshRRD).completed = false ∧
      (runLoop 2 8 [failEnv, failEnv] freshRRD).error_message =
        some ("Too many consecutive failures (" ++ toString 2 ++ ")")) ∧
    ((runIteration 3 0 1 forbiddenEnv).result.should_continue = false ∧
      (runIteration 3 0 1 forbiddenEnv).result.error_message =
        some ((forbiddenEnv.agent.error_type.getD .unknown).value ++ ": " ++
          strTake forbiddenEnv.agent.output 200)) ∧
    (runIteration 3 2 3 completeEnv).newFailures = 0 := by
  refine ⟨?_, ?_, ?_⟩
  · refine C3_consecutive_failure_policy.1 2 8 [failEnv, failEnv] freshRRD
      (by decide) rfl (by decide) ?_
    intro env henv
    rcases List.mem_cons.mp henv with h | h'
    · subst h; exact ⟨rfl, rfl⟩
    · rcases List.mem_cons.mp h' with h2 | h2
      · subst h2; exact ⟨rfl, rfl⟩
      · exact absurd h2 (List.not_mem_nil env)
  · exact C3_consecutive_failure_policy.2.1 3 0 1 forbiddenEnv rfl rfl (by decide)
  · exact C3_consecutive_failure_policy.2.2 3 2 3 completeEnv rfl

/-- C4: evaluation of `save()` under injected failures.  When the rename step
fails the temp file is indeed removed and the previous document survives; but
when the write (`json.dump`) step fails — after the temp file was created and
before `temp_path` was recorded — the temp file REMAINS in the project
directory, contradicting the claim for the write-failure case.  The error
propagates and the previous document survives in every failure case. -/
theorem C4_save_failure_cleanup (r : RRD) (doc0 : Option Json) :
    ((saveModel r doc0 (some .atDump)).raised = true ∧
      (saveModel r doc0 (some .atDump)).docFile = doc0 ∧
      (saveModel r doc0 (some .atDump)).tempFile = true) ∧
    ((saveModel r doc0 (some .atRename)).raised = true ∧
      (saveModel r doc0 (some .atRename)).docFile = doc0 ∧
      (saveModel r doc0 (some .atRename)).tempFile = false) ∧
    ((saveModel r doc0 none).raised = false ∧
      (saveModel r doc0 none).docFile = some (encodeRRD r)) :=
  ⟨⟨rfl, rfl, rfl⟩, ⟨rfl, rfl, rfl⟩, rfl, rfl⟩

/-- C5: `classify_error` is first-match-wins over the ordered rule list
Forbidden, RateLimit, BotChallenge, Timeout, Network with Unknown as default,
and the four concrete examples classify as stated. -/
theorem C5_classify_error_table :
    (∀ s, classify_error s = firstMatch s classifyRules) ∧
    classify_error "Error 403 Forbidden" = .forbidden ∧
    classify_error "HTTP 429 Too Many Requests" = .rate_limit ∧
    classify_error "connection refused" = .network ∧
    classify_error "some random error message" = .unknown := by
  refine ⟨fun s => ?_, by decide, by decide, by decide, by decide⟩
  simp [classify_error, firstMatch, classifyRules]

/-- C6: `get_retry_delay` is exactly the fixed lookup table of the spec, for
every one of the six error kinds. -/
theorem C6_retry_delay_table :
    get_retry_delay .forbidden = (0, false) ∧
    get_retry_delay .bot_challenge = (0, false) ∧
    get_retry_delay .rate_limit = (30, true) ∧
    get_retry_delay .timeout = (2, true) ∧
    get_retry_delay .network = (2, true) ∧
    get_retry_delay .unknown = (5, true) := by
  decide

/-- C7: for every valid document, a successful `save()` writes a file that
`load()` parses back to a field-for-field equal document. -/
theorem C7_save_load_roundtrip (r : RRD) (doc0 : Option Json)
    (h : validRRD r = true) :
    ((saveModel r doc0 none).docFile).bind decodeRRD = some r := by
  show decodeRRD (encodeRRD r) = some r
  exact decodeRRD_enc r h

/-- Witness for C7 on the concrete ANALYSIS-phase document. -/
theorem C7_witness :
    ((saveModel sampleRRD none none).docFile).bind decodeRRD = some sampleRRD :=
  C7_save_load_roundtrip sampleRRD none (by decide)

/-- C8 counterexample: for the codex profile with a nonempty last message,
`run_streaming` delivers a different final `AgentResult` than `run` — `run`
appends the `--output-last-message` file content, `run_streaming` never
passes that argument. -/
theorem C8_counterexample :
    (runStreamingEffects .codex codexBehavior).1.result ≠
      (runEffects .codex codexBehavior).result ∧
    (runEffects .codex codexBehavior).result.output = "done\nFINAL ANSWER" ∧
    (runStreamingEffects .codex codexBehavior).1.result.output = "done\n" := by
  refine ⟨by decide, by decide, by decide⟩

/-- C8 (amended): `run_streaming` matches `run` for the claude and amp
profiles; for codex it matches `run` on a process that writes no last
message, since the streaming command omits `--output-last-message` (and hence
creates no temp file); the streamed lines concatenate to the final output;
and whenever `run` creates its temp file it also removes it. -/
theorem C8_streaming_equivalence_amended (a : Agent) (b : ProcBehavior) :
    ((a = .claude ∨ a = .amp) →
      (runStreamingEffects a b).1.result = (runEffects a b).result) ∧
    (a = .codex →
      (runStreamingEffects a b).1.result =
        (runEffects .codex { b with lastMessage := "" }).result) ∧
    joinStrings (runStreamingEffects a b).2 =
      (runStreamingEffects a b).1.result.output ∧
    (runStreamingEffects a b).1.tempFileCreated = false ∧
    ((runEffects a b).tempFileCreated = true →
      (runEffects a b).tempFileRemoved = true) := by
  have hstream : (runStreamingEffects a b).1.result =
      mkAgentResult b.outStream b.exitCode := by
    simp [runStreamingEffects, joinStrings_toLines]
  refine ⟨?_, ?_, rfl, rfl, ?_⟩
  · intro h
    rw [hstream]
    rcases h with h | h <;> subst h <;> rfl
  · intro h
    subst h
    rw [hstream]
    simp [runEffects]
  · intro h
    cases a <;> simp_all [runEffects]

/-- Witness for C8 (amended) at concrete amp and codex runs. -/
theorem C8_witness :
    (runStreamingEffects .amp ampBehavior).1.result =
      (runEffects .amp ampBehavior).result ∧
    (runStreamingEffects .codex codexBehavior).1.result =
      (runEffects .codex { codexBehavior with lastMessage := "" }).result :=
  ⟨(C8_streaming_equivalence_amended .amp ampBehavior).1 (Or.inr rfl),
   (C8_streaming_equivalence_amended .codex codexBehavior).2.1 rfl⟩

/-- C9: evaluation at the failing input.  `update_target_papers(0, force=False)`
on a fresh valid DISCOVERY document (zero analyzed) is accepted — it returns
True — and persists `target_papers = 0`, violating the `target_papers ≥ 1`
invariant: the persisted document is rejected by the very `load()` validation
of this code base. -/
theorem C9_update_target_papers_zero :
    validRRD freshRRD = true ∧
    (update_target_papers freshRRD 0 false).1 = true ∧
    (update_target_papers freshRRD 0 false).2.requirements.target_papers = 0 ∧
    decodeRRD (encodeRRD (update_target_papers freshRRD 0 false).2) = none :=
  ⟨by decide, rfl, rfl, rfl⟩

/-- C10: `reset()` touches exactly the phase, the two collections and the
five top-level statistics counters; every other field of the document —
identity, requirements, mission, glossary, open questions, timing, handoff,
visited urls, blocked sources, and the three nested metrics blocks — is
unchanged. -/
theorem C10_reset_frame (r : RRD) :
    (reset r).phase = .discovery ∧
    (reset r).papers_pool = [] ∧
    (reset r).insights = [] ∧
    (reset r).statistics.total_discovered = 0 ∧
    (reset r).statistics.total_analyzed = 0 ∧
    (reset r).statistics.total_presented = 0 ∧
    (reset r).statistics.total_rejected = 0 ∧
    (reset r).statistics.total_insights_extracted = 0 ∧
    (reset r).project = r.project ∧
    (reset r).branchName = r.branchName ∧
    (reset r).description = r.description ∧
    (reset r).mission = r.mission ∧
    (reset r).requirements = r.requirements ∧
    (reset r).domain_glossary = r.domain_glossary ∧
    (reset r).open_questions = r.open_questions ∧
    (reset r).timing = r.timing ∧
    (reset r).handoff = r.handoff ∧
    (reset r).visited_urls = r.visited_urls ∧
    (reset r).blocked_sources = r.blocked_sources ∧
    (reset r).statistics.discovery_metrics = r.statistics.discovery_metrics ∧
    (reset r).statistics.analysis_metrics = r.statistics.analysis_metrics ∧
    (reset r).statistics.ideation_metrics = r.statistics.ideation_metrics :=
  ⟨rfl, rfl, rfl, rfl, rfl, rfl, rfl, rfl, rfl, rfl, rfl, rfl, rfl, rfl, rfl,
   rfl, rfl, rfl, rfl, rfl, rfl, rfl⟩

end Ralph
